import Mathlib

/-!
Shallow embedding of the filtering and scoring engine of the
job-application-bot repository (src/filter_jobs.py), together with
theorems settling the frozen claims about it.

Python dictionaries with optional keys are modelled as structures with
`Option` fields (`none` = key absent).  Python exceptions that can escape
the modelled code (`KeyError` on a missing configuration key,
`ZeroDivisionError`) are modelled with `Except PyError`.  Python's float
division followed by `int(...)` truncation is modelled exactly:
`pyTruncPercent` carries out the two IEEE-754 binary64 roundings
(the division `m/k`, then the multiplication by `100`) in integer
arithmetic — round to nearest, ties to even, 53 significant bits, with the
subnormal clamp — and then truncates toward zero.  This reproduces CPython
bit for bit, including the inputs where the result is one below
`⌊100·m/k⌋` (for example `int((29/50)*100) = 57`).
-/

deriving instance DecidableEq for Except

namespace JobBot

/-- Python exceptions that can escape the embedded code. -/
inductive PyError where
  | keyError : String → PyError
  | zeroDiv : PyError
  deriving DecidableEq

/-- A scraped job record (a Python dict); `none` means the key is absent.
Fields are read in `filter_jobs` via `job.get(key, default)`. -/
structure Job where
  id          : Option String := none
  title       : Option String := none
  company     : Option String := none
  salary      : Option Int := none
  location    : Option String := none
  skills      : Option (List String) := none
  description : Option String := none
  valid_until : Option String := none
  deriving DecidableEq

/-- The `salary_range` sub-dictionary of the configuration. -/
structure SalaryRange where
  min : Int
  max : Int
  deriving DecidableEq

/-- The configuration dictionary; `none` means the key is absent
(`load_config` returns the empty dict `{}` when the file is unreadable,
i.e. every field `none`). -/
structure Config where
  salary_range        : Option SalaryRange := none
  locations           : Option (List String) := none
  required_skills     : Option (List String) := none
  timezone            : Option String := none
  blocklist_companies : Option (List String) := none
  deriving DecidableEq

/-- Python `cfg[key]`: the value when present, `KeyError` otherwise. -/
def getKey {α : Type} (v : Option α) (key : String) : Except PyError α :=
  match v with
  | some a => .ok a
  | none => .error (.keyError key)

/-- Python's `str.lower()`, character by character. -/
def strLower (s : String) : String :=
  ⟨s.data.map Char.toLower⟩

/-- Python's `needle in haystack` on strings: substring containment. -/
def strContains (haystack needle : String) : Bool :=
  (List.range (haystack.toList.length + 1)).any
    (fun i => needle.toList.isPrefixOf (haystack.toList.drop i))

/-- Floor of the base-2 logarithm (`n.bit_length() - 1` for `n ≥ 1`),
computed with a structural fuel so that the kernel can evaluate it. -/
def natLog2Aux : Nat → Nat → Nat
  | 0, _ => 0
  | fuel + 1, n => if n ≤ 1 then 0 else natLog2Aux fuel (n / 2) + 1

/-- `⌊log₂ n⌋` for `n ≥ 1` (and `0` at `0`). -/
def natLog2 (n : Nat) : Nat := natLog2Aux n n

/-- Is `num/den ≥ 2^e`? (`num`, `den` positive.) -/
def ratGePow2 (num den : Nat) (e : Int) : Bool :=
  if 0 ≤ e then decide (den * 2 ^ e.toNat ≤ num)
  else decide (den ≤ num * 2 ^ (-e).toNat)

/-- The unique `e` with `2^e ≤ num/den < 2^(e+1)` (`num`, `den` ≥ 1):
the difference of the integer logarithms is off by at most one, corrected
by a single comparison. -/
def ratFloorLog2 (num den : Nat) : Int :=
  if ratGePow2 num den ((natLog2 num : Int) - (natLog2 den : Int)) then
    (natLog2 num : Int) - (natLog2 den : Int)
  else (natLog2 num : Int) - (natLog2 den : Int) - 1

/-- The integer nearest `N/D`, ties to even (the IEEE-754 default). -/
def roundNearestEven (N D : Nat) : Nat :=
  if 2 * (N % D) < D then N / D
  else if D < 2 * (N % D) then N / D + 1
  else if N / D % 2 = 0 then N / D else N / D + 1

/-- The multiple of `2^g` nearest `num/den`, returned as its multiplier. -/
def roundAtGrid (num den : Nat) (g : Int) : Nat :=
  if 0 ≤ g then roundNearestEven num (den * 2 ^ g.toNat)
  else roundNearestEven (num * 2 ^ (-g).toNat) den

/-- The IEEE-754 binary64 value nearest `num/den`, as a pair `(n, g)`
denoting `n·2^g`: the rounding grid sits 52 binary places below the
leading bit, clamped at `2^-1074` for subnormals. -/
def roundFloat (num den : Nat) : Nat × Int :=
  if num = 0 then (0, 0)
  else
    (roundAtGrid num den (max (ratFloorLog2 num den - 52) (-1074)),
     max (ratFloorLog2 num den - 52) (-1074))

/-- Python's `int((m/k)*100)`: binary64 division, binary64 multiplication
by `100`, truncation toward zero — all exact over the integers. -/
def pyTruncPercent (m k : Nat) : Nat :=
  match roundFloat m k with
  | (n1, g1) =>
    match
      (if 0 ≤ g1 then roundFloat (100 * n1 * 2 ^ g1.toNat) 1
       else roundFloat (100 * n1) (2 ^ (-g1).toNat)) with
    | (n2, g2) =>
      if 0 ≤ g2 then n2 * 2 ^ g2.toNat
      else n2 / 2 ^ (-g2).toNat

/-- `skill_match(job_skills, required_skills)` (filter_jobs.py lines 26-31):
percentage of required skills present, via case-insensitive set
intersection; division by `len(required_skills)` raises
`ZeroDivisionError` when the list is empty and `job_skills` is not; the
float arithmetic of `int((len(matched)/len(required_skills))*100)` is
rendered exactly by `pyTruncPercent`. -/
def skill_match (job_skills required_skills : List String) :
    Except PyError Nat :=
  if job_skills = [] then .ok 0
  else
    let matched :=
      ((job_skills.map strLower).dedup.filter
        (fun s => s ∈ required_skills.map strLower)).length
    if required_skills.length = 0 then .error .zeroDiv
    else .ok (pyTruncPercent matched required_skills.length)

/-- `is_within_salary(salary, cfg)` (lines 33-38): `False` for `None`,
otherwise reads `cfg["salary_range"]` (a `KeyError` when absent) and
checks `min <= salary <= max`. -/
def is_within_salary (salary : Option Int) (cfg : Config) :
    Except PyError Bool :=
  match salary with
  | none => .ok false
  | some s =>
    match cfg.salary_range with
    | none => .error (.keyError "salary_range")
    | some r => .ok (decide (r.min ≤ s ∧ s ≤ r.max))

/-- `is_within_radius(location, cfg_locations)` (lines 40-42):
any configured city is a case-insensitive substring of the location. -/
def is_within_radius (location : String) (cfg_locations : List String) :
    Bool :=
  cfg_locations.any
    (fun city => strContains (strLower location) (strLower city))

/-- The fixed urgency keywords of `is_priority` (line 46). -/
def priorityTerms : List String := ["urgent", "immediate joiner", "priority"]

/-- `is_priority(job)` (lines 44-47): a fixed keyword occurs in the
lowercased description (`""` when absent). -/
def is_priority (job : Job) : Bool :=
  priorityTerms.any
    (fun t => strContains (strLower (job.description.getD "")) t)

/-- A parsed UTC timestamp (the fields of a Python `datetime`). -/
structure DateTime where
  year   : Nat
  month  : Nat
  day    : Nat
  hour   : Nat
  minute : Nat
  second : Nat
  deriving DecidableEq

/-- The numeric value of a decimal digit character, `none` otherwise. -/
def digitVal (c : Char) : Option Nat :=
  if c.isDigit then some (c.toNat - 48) else none

/-- Exactly four decimal digits (strptime's `%Y` pattern). -/
def parseYear4 : List Char → Option (Nat × List Char)
  | a :: b :: c :: d :: rest =>
    match digitVal a, digitVal b, digitVal c, digitVal d with
    | some x, some y, some z, some w => some (1000 * x + 100 * y + 10 * z + w, rest)
    | _, _, _, _ => none
  | _ => none

/-- A one- or two-digit numeric field as strptime's regexes match it:
greedily two digits when their value lies in `[lo2, hi2]`, else a single
digit in `[lo1, hi1]`. -/
def parseNum2 (lo2 hi2 lo1 hi1 : Nat) : List Char → Option (Nat × List Char)
  | a :: b :: rest =>
    match digitVal a, digitVal b with
    | some x, some y =>
      if lo2 ≤ 10 * x + y ∧ 10 * x + y ≤ hi2 then some (10 * x + y, rest)
      else if lo1 ≤ x ∧ x ≤ hi1 then some (x, b :: rest)
      else none
    | some x, none =>
      if lo1 ≤ x ∧ x ≤ hi1 then some (x, b :: rest) else none
    | _, _ => none
  | [a] =>
    match digitVal a with
    | some x => if lo1 ≤ x ∧ x ≤ hi1 then some (x, []) else none
    | none => none
  | [] => none

/-- A literal character, case-insensitively (strptime compiles its format
with `re.IGNORECASE`). -/
def parseLit (c : Char) : List Char → Option (List Char)
  | x :: rest => if x.toLower = c.toLower then some rest else none
  | [] => none

/-- Gregorian leap year. -/
def isLeap (y : Nat) : Bool :=
  decide ((y % 4 = 0 ∧ y % 100 ≠ 0) ∨ y % 400 = 0)

/-- Number of days in a month. -/
def daysInMonth (y m : Nat) : Nat :=
  if m = 2 then (if isLeap y then 29 else 28)
  else if m = 4 ∨ m = 6 ∨ m = 9 ∨ m = 11 then 30
  else 31

/-- `datetime.strptime(s, "%Y-%m-%dT%H:%M:%SZ")`: the field regexes of
CPython's `_strptime`, the literal separators, no trailing input, then
the `datetime` constructor's validity checks (year ≥ 1, day within the
month, second ≤ 59). -/
def parseTimestamp (s : String) : Option DateTime :=
  match parseYear4 s.toList with
  | none => none
  | some (y, r1) =>
  match parseLit '-' r1 with
  | none => none
  | some r2 =>
  match parseNum2 1 12 1 9 r2 with
  | none => none
  | some (mo, r3) =>
  match parseLit '-' r3 with
  | none => none
  | some r4 =>
  match parseNum2 1 31 1 9 r4 with
  | none => none
  | some (d, r5) =>
  match parseLit 'T' r5 with
  | none => none
  | some r6 =>
  match parseNum2 0 23 0 9 r6 with
  | none => none
  | some (h, r7) =>
  match parseLit ':' r7 with
  | none => none
  | some r8 =>
  match parseNum2 0 59 0 9 r8 with
  | none => none
  | some (mi, r9) =>
  match parseLit ':' r9 with
  | none => none
  | some r10 =>
  match parseNum2 0 61 0 9 r10 with
  | none => none
  | some (sec, r11) =>
  match parseLit 'Z' r11 with
  | none => none
  | some r12 =>
  if r12 = [] ∧ 1 ≤ y ∧ d ≤ daysInMonth y mo ∧ sec ≤ 59 then
    some ⟨y, mo, d, h, mi, sec⟩
  else none

/-- Days since 1970-01-01 of a Gregorian civil date (year ≥ 1). -/
def daysFromCivil (y m d : Nat) : Int :=
  let y' := if m ≤ 2 then y - 1 else y
  let era := y' / 400
  let yoe := y' % 400
  let mp := if 2 < m then m - 3 else m + 9
  let doy := (153 * mp + 2) / 5 + d - 1
  let doe := yoe * 365 + yoe / 4 - yoe / 100 + doy
  (era * 146097 + doe : Int) - 719468

/-- Gregorian civil date (year, month, day) of a days-since-epoch count. -/
def civilFromDays (z : Int) : Int × Nat × Nat :=
  let zz := z + 719468
  let era := Int.fdiv zz 146097
  let doe := (zz - era * 146097).toNat
  let yoe := (doe - doe / 1460 + doe / 36524 - doe / 146096) / 365
  let doy := doe - (365 * yoe + yoe / 4 - yoe / 100)
  let mp := (5 * doy + 2) / 153
  let d := doy - (153 * mp + 2) / 5 + 1
  let m := if mp < 10 then mp + 3 else mp - 9
  (era * 400 + yoe + (if m ≤ 2 then 1 else 0), m, d)

/-- Seconds since the epoch of a parsed UTC timestamp. -/
def epochOf (dt : DateTime) : Int :=
  daysFromCivil dt.year dt.month dt.day * 86400 +
    (dt.hour * 3600 + dt.minute * 60 + dt.second : Nat)

/-- A timezone database: resolves an identifier to the function giving the
UTC offset in seconds at a given UTC instant (`pytz.timezone` raising
`UnknownTimeZoneError` is `none`; DST makes the offset depend on the
instant). -/
def TzDb : Type := String → Option (Int → Int)

/-- A natural number zero-padded to two digits. -/
def pad2 (n : Nat) : String :=
  if n < 10 then "0" ++ toString n else toString n

/-- A natural number zero-padded to four digits (strftime `%Y`). -/
def pad4 (n : Nat) : String :=
  if n < 10 then "000" ++ toString n
  else if n < 100 then "00" ++ toString n
  else if n < 1000 then "0" ++ toString n
  else toString n

/-- `strftime("%Y-%m-%d")` on a civil date. -/
def formatCivil (y : Nat) (m : Nat) (d : Nat) : String :=
  pad4 y ++ "-" ++ pad2 m ++ "-" ++ pad2 d

/-- The civil (year, month, day) of the UTC instant `dt` shifted into the
timezone whose offset function is `off`. -/
def localCivilTriple (off : Int → Int) (dt : DateTime) : Int × Nat × Nat :=
  civilFromDays (Int.fdiv (epochOf dt + off (epochOf dt)) 86400)

/-- The `%Y-%m-%d` string of the civil date, in the timezone whose offset
function is `off`, of the UTC instant `dt`; `none` when the local result
leaves `datetime`'s year range 1..9999 (Python's `OverflowError`). -/
def localCivilDate (off : Int → Int) (dt : DateTime) : Option String :=
  if 1 ≤ (localCivilTriple off dt).1 ∧ (localCivilTriple off dt).1 ≤ 9999 then
    some (formatCivil (localCivilTriple off dt).1.toNat
      (localCivilTriple off dt).2.1 (localCivilTriple off dt).2.2)
  else none

/-- `convert_time(utc_string, target_tz)` (filter_jobs.py lines 49-56):
parse against the exact layout, resolve the timezone, convert to the
local civil date; every failure is caught and becomes `"N/A"`. -/
def convert_time (tzdb : TzDb) (utc_string target_tz : String) : String :=
  match parseTimestamp utc_string with
  | none => "N/A"
  | some dt =>
    match tzdb target_tz with
    | none => "N/A"
    | some off =>
      match localCivilDate off dt with
      | none => "N/A"
      | some s => s

/-- An accepted output record (the dict appended to `matched`). -/
structure FilteredJob where
  title : String
  match_score : Nat
  salary_compliance : Bool
  priority : String
  valid_until : String
  deriving DecidableEq

/-- The `stats` dictionary of the returned value. -/
structure RunStats where
  total_scraped : Nat
  filtered : Nat
  match_rate : String
  deriving DecidableEq

/-- The dictionary returned by `filter_jobs`. -/
structure RunResult where
  matched_jobs : List FilteredJob
  stats : RunStats
  deriving DecidableEq

/-- `jid = job.get("id", job.get("title", ""))` (line 71). -/
def jobId (job : Job) : String :=
  job.id.getD (job.title.getD "")

/-- The decision the loop body takes for one job: one of the five skip
reasons, in filter order, or acceptance with the built record. -/
inductive Outcome where
  | blocked
  | duplicate
  | salaryOut
  | locationOut
  | lowSkill
  | accepted : FilteredJob → Outcome
  deriving DecidableEq

/-- Lines 101-108 of `filter_jobs`: a job past every filter; reading
`cfg["timezone"]` can still raise `KeyError`, otherwise the output record
is built from the job's fields and the computed score. -/
def acceptStage (tzdb : TzDb) (cfg : Config) (job : Job) (score : Nat) :
    Except PyError Outcome :=
  match cfg.timezone with
  | none => .error (.keyError "timezone")
  | some tz =>
    .ok (.accepted
      { title := job.title.getD ""
        match_score := score
        salary_compliance := true
        priority := if is_priority job then "high" else "normal"
        valid_until := convert_time tzdb (job.valid_until.getD "") tz })

/-- Lines 95-99: the skill-match filter; reading `cfg["required_skills"]`
can raise `KeyError` and `skill_match` can raise `ZeroDivisionError`. -/
def skillStage (tzdb : TzDb) (cfg : Config) (job : Job) :
    Except PyError Outcome :=
  match cfg.required_skills with
  | none => .error (.keyError "required_skills")
  | some req =>
    match skill_match (job.skills.getD []) req with
    | .error e => .error e
    | .ok score =>
      if score < 60 then .ok .lowSkill
      else acceptStage tzdb cfg job score

/-- Lines 90-93: the location filter; reading `cfg["locations"]` can
raise `KeyError`. -/
def locationStage (tzdb : TzDb) (cfg : Config) (job : Job) :
    Except PyError Outcome :=
  match cfg.locations with
  | none => .error (.keyError "locations")
  | some locs =>
    if !(is_within_radius (job.location.getD "") locs) then .ok .locationOut
    else skillStage tzdb cfg job

/-- Lines 86-89: the salary filter over `job.get("salary", 0)`;
`is_within_salary` can raise `KeyError` on `cfg["salary_range"]`. -/
def salaryStage (tzdb : TzDb) (cfg : Config) (job : Job) :
    Except PyError Outcome :=
  match is_within_salary (some (job.salary.getD 0)) cfg with
  | .error e => .error e
  | .ok sOk =>
    if !sOk then .ok .salaryOut else locationStage tzdb cfg job

/-- One iteration of the loop of `filter_jobs` (lines 70-108): field
defaults via `job.get`, then the five filters in their fixed source
order — blocklist, dedup, salary, location, skill match —
short-circuiting on the first failure.  Configuration keys are read
exactly where the Python code reads them, so a missing key raises
`KeyError` only when its filter is reached. -/
def processJob (tzdb : TzDb) (cfg : Config) (seen : List String)
    (job : Job) : Except PyError Outcome :=
  if job.company.getD "" ∈ cfg.blocklist_companies.getD [] then .ok .blocked
  else if jobId job ∈ seen then .ok .duplicate
  else salaryStage tzdb cfg job

/-- The loop of `filter_jobs` over the whole input: returns the `matched`
list and the identifiers appended to the cache file, in order.  The
in-memory `seen` set is the one loaded before the loop and is never
updated inside it (line 111 only appends to the file); an exception in
any iteration propagates out. -/
def runJobs (tzdb : TzDb) (cfg : Config) (seen : List String) :
    List Job → Except PyError (List FilteredJob × List String)
  | [] => .ok ([], [])
  | job :: rest =>
    match processJob tzdb cfg seen job with
    | .error e => .error e
    | .ok o =>
      match runJobs tzdb cfg seen rest with
      | .error e => .error e
      | .ok (ms, ids) =>
        match o with
        | .accepted fj => .ok (fj :: ms, jobId job :: ids)
        | _ => .ok (ms, ids)

/-- `filter_jobs(jobs, cfg)` (lines 58-121).  `cache` is the line list of
`cache.txt` at entry (`[]` when the file was absent); the second returned
component is its contents after the run.  The final `match_rate` divides
by `len(jobs)`, a `ZeroDivisionError` on an empty input. -/
def filter_jobs (tzdb : TzDb) (jobs : List Job) (cfg : Config)
    (cache : List String) :
    Except PyError (RunResult × List String) :=
  match runJobs tzdb cfg cache jobs with
  | .error e => .error e
  | .ok (matched, ids) =>
    if jobs.length = 0 then .error .zeroDiv
    else
      .ok (⟨matched,
            ⟨jobs.length, matched.length,
             toString (pyTruncPercent matched.length jobs.length) ++ "%"⟩⟩,
           cache ++ ids)

/-! ### Concrete instances for evaluation

`kolkataDb` is a fragment of the timezone database with the timezone of the
spec's worked scenario; `sampleConfig` and `sampleJob` are that scenario's
configuration and job record. -/

def kolkataDb : TzDb :=
  fun tz => if tz = "Asia/Kolkata" then some (fun _ => 19800) else none

def sampleConfig : Config :=
  { salary_range := some ⟨50000, 100000⟩
    locations := some ["Pune"]
    required_skills := some ["python", "sql"]
    timezone := some "Asia/Kolkata"
    blocklist_companies := some [] }

def sampleJob : Job :=
  { id := some "j1"
    title := some "Dev"
    company := some "Acme"
    salary := some 75000
    location := some "Pune, MH"
    skills := some ["Python", "SQL", "AWS"]
    description := some "urgent hire"
    valid_until := some "2024-06-01T00:00:00Z" }

/-- The record `filter_jobs` builds for `sampleJob` under `sampleConfig`. -/
def sampleOut : FilteredJob :=
  { title := "Dev"
    match_score := 100
    salary_compliance := true
    priority := "high"
    valid_until := "2024-06-01" }

/-- 29 distinct skill strings, all of them among `skills50`. -/
def skills29 : List String :=
  (List.range 29).map (fun i => "s" ++ toString i)

/-- 50 distinct skill strings. -/
def skills50 : List String :=
  (List.range 50).map (fun i => "s" ++ toString i)

/-! ### Helper lemmas -/

lemma filter_dedup_length_eq_card (A B : List String) :
    ((A.dedup.filter (fun s => s ∈ B)).length) =
      ((A.toFinset ∩ B.toFinset).card) := by
  have hnd : (A.dedup.filter (fun s => s ∈ B)).Nodup :=
    (List.nodup_dedup A).filter _
  rw [← List.toFinset_card_of_nodup hnd]
  congr 1
  ext x
  simp [List.mem_filter, List.mem_dedup, Finset.mem_inter]

lemma natLog2Aux_spec : ∀ fuel n, 1 ≤ n → n ≤ fuel →
    2 ^ natLog2Aux fuel n ≤ n ∧ n < 2 ^ (natLog2Aux fuel n + 1) := by
  intro fuel
  induction fuel with
  | zero => intro n h1 h2; omega
  | succ f ih =>
    intro n h1 h2
    by_cases hn : n ≤ 1
    · have hone : n = 1 := by omega
      subst hone
      simp [natLog2Aux]
    · simp only [natLog2Aux, if_neg hn]
      have h2' : n / 2 ≤ f := by omega
      have h1' : 1 ≤ n / 2 := by omega
      obtain ⟨ha, hb⟩ := ih (n / 2) h1' h2'
      rw [pow_succ, pow_succ]
      constructor
      · omega
      · omega

lemma natLog2_spec (n : Nat) (h : 1 ≤ n) :
    2 ^ natLog2 n ≤ n ∧ n < 2 ^ (natLog2 n + 1) :=
  natLog2Aux_spec n n h le_rfl

lemma natLog2_mono {m n : Nat} (h : m ≤ n) : natLog2 m ≤ natLog2 n := by
  rcases Nat.eq_zero_or_pos m with rfl | hm
  · show natLog2 0 ≤ _
    exact Nat.zero_le _
  · obtain ⟨ha, hb⟩ := natLog2_spec m hm
    obtain ⟨hc, hd⟩ := natLog2_spec n (by omega)
    by_contra hcon
    push_neg at hcon
    have : 2 ^ (natLog2 n + 1) ≤ 2 ^ natLog2 m :=
      Nat.pow_le_pow_right (by norm_num) (by omega)
    omega

lemma natLog2_two_pow (t : Nat) : natLog2 (2 ^ t) = t := by
  obtain ⟨ha, hb⟩ := natLog2_spec (2 ^ t) (Nat.one_le_two_pow)
  have h1 : natLog2 (2 ^ t) ≤ t :=
    (Nat.pow_le_pow_iff_right (by norm_num)).mp ha
  have h2 : t < natLog2 (2 ^ t) + 1 :=
    (Nat.pow_lt_pow_iff_right (by norm_num)).mp hb
  omega

lemma roundNearestEven_le (N D M : Nat) (hD : D ≠ 0) (h : N ≤ D * M) :
    roundNearestEven N D ≤ M := by
  have hdm : N / D ≤ M := by
    calc N / D ≤ (D * M) / D := Nat.div_le_div_right h
      _ = M := Nat.mul_div_cancel_left M (Nat.pos_of_ne_zero hD)
  unfold roundNearestEven
  split
  · exact hdm
  · rename_i h2
    have hne : N / D ≠ M := by
      intro he
      have hmod := Nat.div_add_mod N D
      rw [he] at hmod
      omega
    split
    · omega
    · split
      · exact hdm
      · omega

lemma ratFloorLog2_le (num den : Nat) :
    ratFloorLog2 num den ≤ (natLog2 num : Int) - natLog2 den := by
  unfold ratFloorLog2
  split <;> omega

lemma roundFloat_le_of (num den M : Nat) (hden : den ≠ 0) :
    ∀ n g, roundFloat num den = (n, g) → ¬ 0 ≤ g →
      num ≤ den * M → n ≤ M * 2 ^ (-g).toNat := by
  intro n g hrf hgneg hle
  unfold roundFloat at hrf
  by_cases hz : num = 0
  · rw [if_pos hz] at hrf
    obtain ⟨h1, h2⟩ := Prod.mk.inj hrf
    exact absurd (h2 ▸ le_refl (0 : Int)) hgneg
  · rw [if_neg hz] at hrf
    obtain ⟨h1, h2⟩ := Prod.mk.inj hrf
    subst h2
    rw [← h1]
    unfold roundAtGrid
    rw [if_neg hgneg]
    refine roundNearestEven_le _ _ _ hden ?_
    calc num * 2 ^ (-(max (ratFloorLog2 num den - 52) (-1074))).toNat
        ≤ (den * M) * 2 ^ (-(max (ratFloorLog2 num den - 52) (-1074))).toNat :=
          Nat.mul_le_mul_right _ hle
      _ = den * (M * 2 ^ (-(max (ratFloorLog2 num den - 52) (-1074))).toNat) := by
          ring

lemma pyTruncPercent_le_100 (m k : Nat) (hmk : m ≤ k) (hk : k ≠ 0) :
    pyTruncPercent m k ≤ 100 := by
  unfold pyTruncPercent
  by_cases hm : m = 0
  · subst hm
    simp [roundFloat]
  · have hmono : natLog2 m ≤ natLog2 k := natLog2_mono hmk
    have he1 := ratFloorLog2_le m k
    obtain ⟨n1, g1, hrf1⟩ : ∃ n g, roundFloat m k = (n, g) := ⟨_, _, rfl⟩
    have hg1eq : g1 = max (ratFloorLog2 m k - 52) (-1074) := by
      unfold roundFloat at hrf1
      rw [if_neg hm] at hrf1
      exact (Prod.mk.inj hrf1).2.symm
    have hg1neg : ¬ (0 ≤ g1) := by rw [hg1eq]; omega
    have hn1 : n1 ≤ 1 * 2 ^ (-g1).toNat :=
      roundFloat_le_of m k 1 hk n1 g1 hrf1 hg1neg (by omega)
    rw [hrf1]
    dsimp only
    rw [if_neg hg1neg]
    by_cases hz2 : 100 * n1 = 0
    · rw [hz2]
      simp [roundFloat]
    · obtain ⟨n2, g2, hrf2⟩ :
        ∃ n g, roundFloat (100 * n1) (2 ^ (-g1).toNat) = (n, g) := ⟨_, _, rfl⟩
      have hg2eq : g2 =
          max (ratFloorLog2 (100 * n1) (2 ^ (-g1).toNat) - 52) (-1074) := by
        unfold roundFloat at hrf2
        rw [if_neg hz2] at hrf2
        exact (Prod.mk.inj hrf2).2.symm
      have ht1pos : (2 : Nat) ^ (-g1).toNat ≠ 0 := (Nat.two_pow_pos _).ne'
      have hle2 : 100 * n1 ≤ 2 ^ (-g1).toNat * 100 := by
        calc 100 * n1 ≤ 100 * (1 * 2 ^ (-g1).toNat) := Nat.mul_le_mul_left _ hn1
          _ = 2 ^ (-g1).toNat * 100 := by ring
      have he2 : ratFloorLog2 (100 * n1) (2 ^ (-g1).toNat) ≤ 7 := by
        have hb1 : natLog2 (100 * n1) ≤ natLog2 (2 ^ ((-g1).toNat + 7)) :=
          natLog2_mono (by
            calc 100 * n1 ≤ 2 ^ (-g1).toNat * 100 := hle2
              _ ≤ 2 ^ (-g1).toNat * 128 := Nat.mul_le_mul_left _ (by norm_num)
              _ = 2 ^ ((-g1).toNat + 7) := by rw [pow_add]; ring)
        rw [natLog2_two_pow] at hb1
        have hb2 := ratFloorLog2_le (100 * n1) (2 ^ (-g1).toNat)
        rw [natLog2_two_pow] at hb2
        omega
      have hg2neg : ¬ (0 ≤ g2) := by rw [hg2eq]; omega
      have hn2 : n2 ≤ 100 * 2 ^ (-g2).toNat :=
        roundFloat_le_of (100 * n1) (2 ^ (-g1).toNat) 100 ht1pos n2 g2 hrf2
          hg2neg hle2
      rw [hrf2]
      dsimp only
      rw [if_neg hg2neg]
      calc n2 / 2 ^ (-g2).toNat
          ≤ (100 * 2 ^ (-g2).toNat) / 2 ^ (-g2).toNat :=
            Nat.div_le_div_right hn2
        _ = 100 := Nat.mul_div_cancel 100 (Nat.two_pow_pos _)

lemma pyTruncPercent_zero (k : Nat) : pyTruncPercent 0 k = 0 := rfl

lemma skill_match_le_100 (js rs : List String) (n : Nat)
    (h : skill_match js rs = .ok n) : n ≤ 100 := by
  unfold skill_match at h
  split at h
  · injection h with h; omega
  · split at h
    · cases h
    · injection h with h
      subst h
      rename_i hjs hk
      refine pyTruncPercent_le_100 _ _ ?_ hk
      rw [filter_dedup_length_eq_card]
      calc ((js.map strLower).toFinset ∩ (rs.map strLower).toFinset).card
          ≤ (rs.map strLower).toFinset.card :=
            Finset.card_le_card Finset.inter_subset_right
        _ ≤ (rs.map strLower).length := List.toFinset_card_le _
        _ = rs.length := by simp

lemma localCivilDate_shape (off : Int → Int) (dt : DateTime) (d : String)
    (h : localCivilDate off dt = some d) :
    ∃ y m dd, d = formatCivil y m dd := by
  unfold localCivilDate at h
  split at h
  · exact ⟨_, _, _, (Option.some.inj h).symm⟩
  · cases h

lemma convert_time_shape (tzdb : TzDb) (s tz : String) :
    convert_time tzdb s tz = "N/A" ∨
      ∃ y m d, convert_time tzdb s tz = formatCivil y m d := by
  cases hp : parseTimestamp s with
  | none => exact .inl (by simp [convert_time, hp])
  | some dt =>
    cases ht : tzdb tz with
    | none => exact .inl (by simp [convert_time, hp, ht])
    | some off =>
      cases h : localCivilDate off dt with
      | none => exact .inl (by simp [convert_time, hp, ht, h])
      | some d =>
        right
        obtain ⟨y, m, dd, rfl⟩ := localCivilDate_shape off dt d h
        exact ⟨y, m, dd, by simp [convert_time, hp, ht, h]⟩

lemma acceptStage_ok (tzdb : TzDb) (cfg : Config) (job : Job) (sc : Nat)
    (o : Outcome) (h : acceptStage tzdb cfg job sc = .ok o) :
    ∃ fj, o = .accepted fj := by
  unfold acceptStage at h
  split at h
  · cases h
  · exact ⟨_, (Except.ok.inj h).symm⟩

lemma skillStage_ok (tzdb : TzDb) (cfg : Config) (job : Job)
    (o : Outcome) (h : skillStage tzdb cfg job = .ok o) :
    o = .lowSkill ∨ ∃ fj, o = .accepted fj := by
  unfold skillStage at h
  split at h
  · cases h
  · split at h
    · cases h
    · split at h
      · exact .inl (Except.ok.inj h).symm
      · exact .inr (acceptStage_ok _ _ _ _ _ h)

lemma locationStage_ok (tzdb : TzDb) (cfg : Config) (job : Job)
    (o : Outcome) (h : locationStage tzdb cfg job = .ok o) :
    o = .locationOut ∨ o = .lowSkill ∨ ∃ fj, o = .accepted fj := by
  unfold locationStage at h
  split at h
  · cases h
  · split at h
    · exact .inl (Except.ok.inj h).symm
    · exact .inr (skillStage_ok _ _ _ _ h)

lemma acceptStage_eq (tzdb : TzDb) (cfg : Config) (job : Job) (sc : Nat)
    (tz : String) (ht : cfg.timezone = some tz) :
    acceptStage tzdb cfg job sc = .ok (.accepted
      { title := job.title.getD ""
        match_score := sc
        salary_compliance := true
        priority := if is_priority job then "high" else "normal"
        valid_until := convert_time tzdb (job.valid_until.getD "") tz }) := by
  unfold acceptStage; rw [ht]

lemma skillStage_eq_low (tzdb : TzDb) (cfg : Config) (job : Job)
    (req : List String) (sc : Nat) (hr : cfg.required_skills = some req)
    (hsm : skill_match (job.skills.getD []) req = .ok sc) (h : sc < 60) :
    skillStage tzdb cfg job = .ok .lowSkill := by
  unfold skillStage; rw [hr]; simp only [hsm]; rw [if_pos h]

lemma skillStage_eq_accept (tzdb : TzDb) (cfg : Config) (job : Job)
    (req : List String) (sc : Nat) (hr : cfg.required_skills = some req)
    (hsm : skill_match (job.skills.getD []) req = .ok sc) (h : ¬ sc < 60) :
    skillStage tzdb cfg job = acceptStage tzdb cfg job sc := by
  unfold skillStage; rw [hr]; simp only [hsm]; rw [if_neg h]

lemma locationStage_eq_out (tzdb : TzDb) (cfg : Config) (job : Job)
    (ls : List String) (hl : cfg.locations = some ls)
    (hin : is_within_radius (job.location.getD "") ls = false) :
    locationStage tzdb cfg job = .ok .locationOut := by
  unfold locationStage; rw [hl]; simp [hin]

lemma locationStage_eq_skill (tzdb : TzDb) (cfg : Config) (job : Job)
    (ls : List String) (hl : cfg.locations = some ls)
    (hin : is_within_radius (job.location.getD "") ls = true) :
    locationStage tzdb cfg job = skillStage tzdb cfg job := by
  unfold locationStage; rw [hl]; simp [hin]

lemma salaryStage_eq_out (tzdb : TzDb) (cfg : Config) (job : Job)
    (hs : is_within_salary (some (job.salary.getD 0)) cfg = .ok false) :
    salaryStage tzdb cfg job = .ok .salaryOut := by
  unfold salaryStage; rw [hs]; simp

lemma salaryStage_eq_loc (tzdb : TzDb) (cfg : Config) (job : Job)
    (hs : is_within_salary (some (job.salary.getD 0)) cfg = .ok true) :
    salaryStage tzdb cfg job = locationStage tzdb cfg job := by
  unfold salaryStage; rw [hs]; simp

lemma acceptStage_accepted_iff (tzdb : TzDb) (cfg : Config) (job : Job) (sc : Nat) :
    (∃ fj, acceptStage tzdb cfg job sc = .ok (.accepted fj)) ↔
      ∃ tz, cfg.timezone = some tz := by
  cases h : cfg.timezone <;> simp [acceptStage, h]

lemma skillStage_accepted_iff (tzdb : TzDb) (cfg : Config) (job : Job) :
    (∃ fj, skillStage tzdb cfg job = .ok (.accepted fj)) ↔
      (∃ rs sc, cfg.required_skills = some rs ∧
         skill_match (job.skills.getD []) rs = .ok sc ∧ 60 ≤ sc) ∧
      (∃ tz, cfg.timezone = some tz) := by
  cases hr : cfg.required_skills with
  | none => simp [skillStage, hr]
  | some req =>
    cases hs : skill_match (job.skills.getD []) req with
    | error e => simp [skillStage, hr, hs]
    | ok sc =>
      by_cases hsc : sc < 60
      · rw [skillStage_eq_low tzdb cfg job req sc hr hs hsc]
        constructor
        · rintro ⟨fj, hfj⟩; cases hfj
        · rintro ⟨⟨rs, sc', hrs, hsc', h60⟩, _⟩
          obtain rfl : req = rs := Option.some.inj hrs
          rw [hs] at hsc'
          have hsceq : sc = sc' := Except.ok.inj hsc'
          exact absurd h60 (by omega)
      · rw [skillStage_eq_accept tzdb cfg job req sc hr hs hsc]
        rw [acceptStage_accepted_iff]
        constructor
        · intro h; exact ⟨⟨req, sc, rfl, hs, by omega⟩, h⟩
        · rintro ⟨_, h⟩; exact h

lemma locationStage_accepted_iff (tzdb : TzDb) (cfg : Config) (job : Job) :
    (∃ fj, locationStage tzdb cfg job = .ok (.accepted fj)) ↔
      (∃ ls, cfg.locations = some ls ∧
         is_within_radius (job.location.getD "") ls = true) ∧
      (∃ rs sc, cfg.required_skills = some rs ∧
         skill_match (job.skills.getD []) rs = .ok sc ∧ 60 ≤ sc) ∧
      (∃ tz, cfg.timezone = some tz) := by
  cases hl : cfg.locations with
  | none => simp [locationStage, hl]
  | some ls =>
    cases hin : is_within_radius (job.location.getD "") ls with
    | false =>
      rw [locationStage_eq_out tzdb cfg job ls hl hin]
      constructor
      · rintro ⟨fj, hfj⟩; cases hfj
      · rintro ⟨⟨ls', hls, hin'⟩, _⟩
        obtain rfl : ls = ls' := Option.some.inj hls
        rw [hin] at hin'
        cases hin'
    | true =>
      rw [locationStage_eq_skill tzdb cfg job ls hl hin]
      rw [skillStage_accepted_iff]
      constructor
      · intro h; exact ⟨⟨ls, rfl, hin⟩, h⟩
      · rintro ⟨_, h⟩; exact h

lemma salaryStage_accepted_iff (tzdb : TzDb) (cfg : Config) (job : Job) :
    (∃ fj, salaryStage tzdb cfg job = .ok (.accepted fj)) ↔
      is_within_salary (some (job.salary.getD 0)) cfg = .ok true ∧
      (∃ ls, cfg.locations = some ls ∧
         is_within_radius (job.location.getD "") ls = true) ∧
      (∃ rs sc, cfg.required_skills = some rs ∧
         skill_match (job.skills.getD []) rs = .ok sc ∧ 60 ≤ sc) ∧
      (∃ tz, cfg.timezone = some tz) := by
  cases hs : is_within_salary (some (job.salary.getD 0)) cfg with
  | error e => simp [salaryStage, hs]
  | ok b =>
    cases b with
    | false =>
      rw [salaryStage_eq_out tzdb cfg job hs]
      constructor
      · rintro ⟨fj, hfj⟩; cases hfj
      · rintro ⟨hfalse, _⟩
        exact absurd hfalse (by decide)
    | true =>
      rw [salaryStage_eq_loc tzdb cfg job hs]
      rw [locationStage_accepted_iff]
      constructor
      · intro h; exact ⟨rfl, h⟩
      · rintro ⟨_, h⟩; exact h

lemma processJob_accepted_iff (tzdb : TzDb) (cfg : Config)
    (seen : List String) (job : Job) :
    (∃ fj, processJob tzdb cfg seen job = .ok (.accepted fj)) ↔
      job.company.getD "" ∉ cfg.blocklist_companies.getD [] ∧
      jobId job ∉ seen ∧
      is_within_salary (some (job.salary.getD 0)) cfg = .ok true ∧
      (∃ ls, cfg.locations = some ls ∧
         is_within_radius (job.location.getD "") ls = true) ∧
      (∃ rs sc, cfg.required_skills = some rs ∧
         skill_match (job.skills.getD []) rs = .ok sc ∧ 60 ≤ sc) ∧
      (∃ tz, cfg.timezone = some tz) := by
  unfold processJob
  by_cases hb : job.company.getD "" ∈ cfg.blocklist_companies.getD []
  · rw [if_pos hb]
    constructor
    · rintro ⟨fj, hfj⟩; cases hfj
    · rintro ⟨hnb, _⟩; exact absurd hb hnb
  · rw [if_neg hb]
    by_cases hseen : jobId job ∈ seen
    · rw [if_pos hseen]
      constructor
      · rintro ⟨fj, hfj⟩; cases hfj
      · rintro ⟨_, hns, _⟩; exact absurd hseen hns
    · rw [if_neg hseen]
      rw [salaryStage_accepted_iff]
      constructor
      · intro h; exact ⟨hb, hseen, h⟩
      · rintro ⟨_, _, h⟩; exact h

lemma processJob_accepted_not_seen (tzdb : TzDb) (cfg : Config)
    (seen : List String) (job : Job) (fj : FilteredJob)
    (h : processJob tzdb cfg seen job = .ok (.accepted fj)) :
    jobId job ∉ seen := by
  unfold processJob at h
  split at h
  · cases h
  · split at h
    · cases h
    · rename_i h2
      exact h2

lemma runJobs_inv (tzdb : TzDb) (cfg : Config) (seen : List String) :
    ∀ jobs ms ids, runJobs tzdb cfg seen jobs = .ok (ms, ids) →
      (∀ i ∈ ids, i ∉ seen) ∧
      (∀ fj ∈ ms, ∃ job, processJob tzdb cfg seen job = .ok (.accepted fj)) := by
  intro jobs
  induction jobs with
  | nil =>
    intro ms ids h
    obtain ⟨h1, h2⟩ := Prod.mk.inj (Except.ok.inj h)
    subst h1; subst h2
    constructor
    · intro i hi; cases hi
    · intro fj hfj; cases hfj
  | cons job rest ih =>
    intro ms ids h
    simp only [runJobs] at h
    cases hp : processJob tzdb cfg seen job with
    | error e => rw [hp] at h; cases h
    | ok o =>
      rw [hp] at h
      cases hr : runJobs tzdb cfg seen rest with
      | error e => rw [hr] at h; cases h
      | ok p =>
        obtain ⟨ms', ids'⟩ := p
        rw [hr] at h
        obtain ⟨hA, hB⟩ := ih ms' ids' hr
        cases o with
        | accepted fj =>
          obtain ⟨h1, h2⟩ := Prod.mk.inj (Except.ok.inj h)
          subst h1; subst h2
          constructor
          · intro i hi
            rcases List.mem_cons.mp hi with rfl | hmem
            · exact processJob_accepted_not_seen tzdb cfg seen job fj hp
            · exact hA i hmem
          · intro g hg
            rcases List.mem_cons.mp hg with rfl | hmem
            · exact ⟨job, hp⟩
            · exact hB g hmem
        | blocked =>
          obtain ⟨h1, h2⟩ := Prod.mk.inj (Except.ok.inj h)
          subst h1; subst h2; exact ⟨hA, hB⟩
        | duplicate =>
          obtain ⟨h1, h2⟩ := Prod.mk.inj (Except.ok.inj h)
          subst h1; subst h2; exact ⟨hA, hB⟩
        | salaryOut =>
          obtain ⟨h1, h2⟩ := Prod.mk.inj (Except.ok.inj h)
          subst h1; subst h2; exact ⟨hA, hB⟩
        | locationOut =>
          obtain ⟨h1, h2⟩ := Prod.mk.inj (Except.ok.inj h)
          subst h1; subst h2; exact ⟨hA, hB⟩
        | lowSkill =>
          obtain ⟨h1, h2⟩ := Prod.mk.inj (Except.ok.inj h)
          subst h1; subst h2; exact ⟨hA, hB⟩

lemma filter_jobs_ok_inv (tzdb : TzDb) (jobs : List Job) (cfg : Config)
    (cache : List String) (res : RunResult) (out : List String)
    (h : filter_jobs tzdb jobs cfg cache = .ok (res, out)) :
    ∃ ids, runJobs tzdb cfg cache jobs = .ok (res.matched_jobs, ids) ∧
      out = cache ++ ids := by
  cases hr : runJobs tzdb cfg cache jobs with
  | error e => unfold filter_jobs at h; rw [hr] at h; cases h
  | ok p =>
    obtain ⟨ms, ids⟩ := p
    unfold filter_jobs at h
    rw [hr] at h
    dsimp only at h
    by_cases hz : jobs.length = 0
    · rw [if_pos hz] at h; cases h
    · rw [if_neg hz] at h
      obtain ⟨h1, h2⟩ := Prod.mk.inj (Except.ok.inj h)
      refine ⟨ids, ?_, h2.symm⟩
      rw [← h1]

lemma acceptStage_accepted_inv (tzdb : TzDb) (cfg : Config) (job : Job)
    (sc : Nat) (fj : FilteredJob)
    (h : acceptStage tzdb cfg job sc = .ok (.accepted fj)) :
    ∃ tz, cfg.timezone = some tz ∧
      fj = { title := job.title.getD ""
             match_score := sc
             salary_compliance := true
             priority := if is_priority job then "high" else "normal"
             valid_until := convert_time tzdb (job.valid_until.getD "") tz } := by
  unfold acceptStage at h
  split at h
  · cases h
  · rename_i tz htz
    exact ⟨tz, htz, (Outcome.accepted.inj (Except.ok.inj h)).symm⟩

lemma skillStage_accepted_inv (tzdb : TzDb) (cfg : Config) (job : Job)
    (fj : FilteredJob)
    (h : skillStage tzdb cfg job = .ok (.accepted fj)) :
    ∃ req sc, cfg.required_skills = some req ∧
      skill_match (job.skills.getD []) req = .ok sc ∧ ¬ sc < 60 ∧
      acceptStage tzdb cfg job sc = .ok (.accepted fj) := by
  unfold skillStage at h
  split at h
  · cases h
  · rename_i req hreq
    split at h
    · cases h
    · rename_i sc hsc
      split at h
      · cases h
      · rename_i h60
        exact ⟨req, sc, hreq, hsc, h60, h⟩

lemma locationStage_accepted_inv (tzdb : TzDb) (cfg : Config) (job : Job)
    (fj : FilteredJob)
    (h : locationStage tzdb cfg job = .ok (.accepted fj)) :
    skillStage tzdb cfg job = .ok (.accepted fj) := by
  unfold locationStage at h
  split at h
  · cases h
  · split at h
    · cases h
    · exact h

lemma salaryStage_accepted_inv (tzdb : TzDb) (cfg : Config) (job : Job)
    (fj : FilteredJob)
    (h : salaryStage tzdb cfg job = .ok (.accepted fj)) :
    locationStage tzdb cfg job = .ok (.accepted fj) := by
  unfold salaryStage at h
  split at h
  · cases h
  · split at h
    · cases h
    · exact h

lemma accepted_record_props (tzdb : TzDb) (cfg : Config) (seen : List String)
    (job : Job) (fj : FilteredJob)
    (h : processJob tzdb cfg seen job = .ok (.accepted fj)) :
    fj.salary_compliance = true ∧ 60 ≤ fj.match_score ∧ fj.match_score ≤ 100 ∧
    (fj.priority = "high" ∨ fj.priority = "normal") ∧
    (fj.valid_until = "N/A" ∨ ∃ y m d, fj.valid_until = formatCivil y m d) := by
  unfold processJob at h
  split at h
  · cases h
  · split at h
    · cases h
    · obtain ⟨req, sc, hreq, hsm, h60, hacc⟩ :=
        skillStage_accepted_inv tzdb cfg job fj
          (locationStage_accepted_inv tzdb cfg job fj
            (salaryStage_accepted_inv tzdb cfg job fj h))
      obtain ⟨tz, htz, rfl⟩ := acceptStage_accepted_inv tzdb cfg job sc fj hacc
      refine ⟨rfl, (show 60 ≤ sc by omega), skill_match_le_100 _ _ _ hsm, ?_, ?_⟩
      · by_cases hp : is_priority job
        · left; simp [hp]
        · right; simp [hp]
      · exact convert_time_shape tzdb (job.valid_until.getD "") tz

/-! ### The claims -/

/-- C1: the claim states that when a job is accepted its identifier is
recorded in both the persisted store and the in-memory seen set, so no two
accepted outputs of a single `filter_jobs` run share an identifier.  The
loop body (lines 101-112) only appends to the cache file and never updates
the in-memory `seen` set, so the very same job submitted twice in one run
is accepted twice: here one run over two copies of `sampleJob` emits two
records and appends the identifier `"j1"` twice. -/
theorem C1_same_run_duplicate_accepted_twice :
    filter_jobs kolkataDb [sampleJob, sampleJob] sampleConfig [] =
      .ok (⟨[sampleOut, sampleOut], ⟨2, 2, "100%"⟩⟩, ["j1", "j1"]) := by
  decide

/-- C2: the claim states that for the empty input sequence `filter_jobs`
returns `match_rate = "0%"` instead of faulting.  The code computes
`int(len(matched)/total*100)` with `total = 0` (line 119), so every run
over an empty input raises `ZeroDivisionError` instead. -/
theorem C2_empty_input_zero_division (tzdb : TzDb) (cfg : Config)
    (cache : List String) :
    filter_jobs tzdb [] cfg cache = .error .zeroDiv := rfl

/-- C3: the claim states that a configuration missing a required key
(or with empty `required_skills`) makes the pipeline fail fast with a
configuration error before per-job scoring begins.  The code performs no
validation at all: with the empty configuration the run dies with a
`KeyError` raised inside the salary check while processing the first job,
and when no job reaches the missing key (here: the only job is
blocklisted) the run completes without any error. -/
theorem C3_no_failfast_config_validation :
    filter_jobs kolkataDb [sampleJob] {} [] =
      .error (.keyError "salary_range") ∧
    filter_jobs kolkataDb [sampleJob]
        { blocklist_companies := some ["Acme"] } [] =
      .ok (⟨[], ⟨1, 0, "0%"⟩⟩, []) := by
  decide

/-- C4 counterexample: the claim states that a job record with no salary
field is rejected by the salary filter regardless of the configured
range.  The pipeline substitutes `0` for a missing salary
(`job.get("salary", 0)`, line 73), so with the range `[0, 100000]` the
salary-less variant of `sampleJob` sails through the salary filter and is
accepted. -/
theorem C4_absent_salary_accepted :
    processJob kolkataDb { sampleConfig with salary_range := some ⟨0, 100000⟩ }
      [] { sampleJob with salary := none } = .ok (.accepted sampleOut) := by
  decide

/-- C4 (amended): `is_within_salary` itself is as claimed — `false` for an
absent (`None`) salary, `min ≤ x ≤ max` inclusive otherwise — but the
pipeline substitutes `0` for a missing salary field before calling it, so
a job with no salary field is rejected by the salary filter iff `0` lies
outside the configured range, not regardless of the range. -/
theorem C4_salary_amended (cfg : Config) (r : SalaryRange) (x : Int)
    (tzdb : TzDb) (seen : List String) (job : Job)
    (hr : cfg.salary_range = some r) (hsal : job.salary = none)
    (hnb : job.company.getD "" ∉ cfg.blocklist_companies.getD [])
    (hns : jobId job ∉ seen) :
    is_within_salary none cfg = .ok false ∧
    is_within_salary (some x) cfg = .ok (decide (r.min ≤ x ∧ x ≤ r.max)) ∧
    (processJob tzdb cfg seen job = .ok .salaryOut ↔
      ¬(r.min ≤ 0 ∧ 0 ≤ r.max)) := by
  have hs0 : is_within_salary (some (job.salary.getD 0)) cfg =
      .ok (decide (r.min ≤ 0 ∧ 0 ≤ r.max)) := by
    rw [hsal]
    unfold is_within_salary
    rw [hr]
    rfl
  refine ⟨rfl, ?_, ?_⟩
  · unfold is_within_salary; rw [hr]
  · unfold processJob
    rw [if_neg hnb, if_neg hns]
    by_cases hc : r.min ≤ 0 ∧ 0 ≤ r.max
    · rw [salaryStage_eq_loc tzdb cfg job (by rw [hs0]; simp [hc])]
      constructor
      · intro heq
        rcases locationStage_ok tzdb cfg job .salaryOut heq with h | h | ⟨fj, h⟩ <;>
          cases h
      · intro hnc; exact absurd hc hnc
    · rw [salaryStage_eq_out tzdb cfg job (by rw [hs0]; simp [hc])]
      exact ⟨fun _ => hc, fun _ => rfl⟩

/-- Witness for C4's amended theorem at the worked scenario: the salary
range `[50000, 100000]` does not contain `0`, so the salary-less variant
of `sampleJob` is rejected by the salary filter there. -/
theorem C4_salary_amended_witness :
    is_within_salary none sampleConfig = .ok false ∧
    is_within_salary (some 75000) sampleConfig =
      .ok (decide ((50000 : Int) ≤ 75000 ∧ (75000 : Int) ≤ 100000)) ∧
    (processJob kolkataDb sampleConfig [] { sampleJob with salary := none } =
        .ok .salaryOut ↔ ¬((50000 : Int) ≤ 0 ∧ (0 : Int) ≤ 100000)) :=
  C4_salary_amended sampleConfig ⟨50000, 100000⟩ 75000 kolkataDb []
    { sampleJob with salary := none } rfl rfl (by decide) (by decide)

/-- C5 counterexample: the claim asserts `skill_match` returns exactly
`⌊100·m/k⌋`.  The source computes
`int((len(matched)/len(required_skills))*100)` in IEEE-754 binary64
arithmetic, and at `m = 29` of `k = 50` required skills the float product
lands just below the integer: CPython returns `57` while
`⌊100·29/50⌋ = 58`. -/
theorem C5_floor_formula_counterexample :
    skill_match skills29 skills50 = .ok 57 ∧
    (100 * ((skills29.map strLower).toFinset ∩
      (skills50.map strLower).toFinset).card) / skills50.length = 58 := by
  decide

/-- C5 (amended): for `required_skills` of positive length `k`,
`skill_match` returns `int((m/k)*100)` computed in IEEE-754 binary64
arithmetic (`pyTruncPercent`), where `m` is the cardinality of the
case-insensitive set intersection of the two skill lists; this equals
`⌊100·m/k⌋` except where float rounding lands just below an integer, in
which case it is one less (e.g. `m = 29, k = 50` yields `57`, not `58`).
For empty `job_skills` it returns `0` regardless of `required_skills`. -/
theorem C5_skill_match_amended (js rs : List String) :
    (0 < rs.length →
      skill_match js rs =
        .ok (pyTruncPercent
          ((js.map strLower).toFinset ∩ (rs.map strLower).toFinset).card
          rs.length)) ∧
    (js = [] → skill_match js rs = .ok 0) := by
  constructor
  · intro hk
    by_cases hjs : js = []
    · subst hjs
      simp [skill_match, pyTruncPercent_zero]
    · unfold skill_match
      rw [if_neg hjs, if_neg (by omega : ¬ rs.length = 0)]
      rw [filter_dedup_length_eq_card]
  · intro hjs; subst hjs; rfl

/-- Witness for C5's amended theorem at the divergent point itself:
29 matching skills of 50 required. -/
theorem C5_skill_match_amended_witness :
    0 < skills50.length ∧
    skill_match skills29 skills50 =
      .ok (pyTruncPercent
        ((skills29.map strLower).toFinset ∩
          (skills50.map strLower).toFinset).card skills50.length) :=
  ⟨by decide, (C5_skill_match_amended skills29 skills50).1 (by decide)⟩

/-- C6: an identifier present in the persisted dedup store at pipeline
start is never re-accepted: none of the identifiers appended by a
successful run (the part of the output store past the input store) is in
the input store, and consequently a second run over the store left by the
first accepts none of the identifiers the first run accepted. -/
theorem C6_cache_never_reaccepted (tzdb : TzDb) (jobs : List Job)
    (cfg : Config) (cache : List String) (res : RunResult)
    (out : List String)
    (h : filter_jobs tzdb jobs cfg cache = .ok (res, out)) :
    (∀ i ∈ cache, i ∉ out.drop cache.length) ∧
    (∀ (tzdb2 : TzDb) (jobs2 : List Job) (cfg2 : Config) (res2 : RunResult)
        (out2 : List String),
      filter_jobs tzdb2 jobs2 cfg2 out = .ok (res2, out2) →
      ∀ i ∈ out.drop cache.length, i ∉ out2.drop out.length) := by
  obtain ⟨ids, hrun, rfl⟩ := filter_jobs_ok_inv _ _ _ _ _ _ h
  rw [List.drop_left]
  have h1 := (runJobs_inv tzdb cfg cache jobs res.matched_jobs ids hrun).1
  constructor
  · intro i hic hin
    exact h1 i hin hic
  · intro tzdb2 jobs2 cfg2 res2 out2 h2 i hin
    obtain ⟨ids2, hrun2, rfl⟩ := filter_jobs_ok_inv _ _ _ _ _ _ h2
    rw [List.drop_left]
    intro hin2
    exact (runJobs_inv tzdb2 cfg2 _ jobs2 res2.matched_jobs ids2 hrun2).1
      i hin2 (List.mem_append.mpr (.inr hin))

/-- Witness for C6: a run that starts with `"seen0"` in the store and
accepts `"j1"` appends nothing that was already in the store. -/
theorem C6_cache_never_reaccepted_witness :
    "seen0" ∉ ((["seen0", "j1"] : List String).drop
      (["seen0"] : List String).length) :=
  (C6_cache_never_reaccepted kolkataDb [sampleJob] sampleConfig ["seen0"]
    ⟨[sampleOut], ⟨1, 1, "100%"⟩⟩ ["seen0", "j1"] (by decide)).1
    "seen0" (by decide)

/-- C7: `convert_time` returns the local civil date exactly when the
string parses against the fixed layout, the timezone resolves, and the
shifted instant stays in `datetime`'s year range; every failure — parse
failure (including the empty string), unknown timezone, out-of-range
result — yields the sentinel `"N/A"`, and no fault escapes (the function
is total). -/
theorem C7_convert_time (tzdb : TzDb) (s tz : String) :
    (∀ dt off d, parseTimestamp s = some dt → tzdb tz = some off →
      localCivilDate off dt = some d → convert_time tzdb s tz = d) ∧
    ((parseTimestamp s = none ∨ tzdb tz = none) →
      convert_time tzdb s tz = "N/A") ∧
    (∀ dt off, parseTimestamp s = some dt → tzdb tz = some off →
      localCivilDate off dt = none → convert_time tzdb s tz = "N/A") ∧
    convert_time tzdb "" tz = "N/A" := by
  refine ⟨?_, ?_, ?_, ?_⟩
  · intro dt off d hp ht hl
    simp [convert_time, hp, ht, hl]
  · rintro (hp | ht)
    · simp [convert_time, hp]
    · cases hp : parseTimestamp s with
      | none => simp [convert_time, hp]
      | some dt => simp [convert_time, hp, ht]
  · intro dt off hp ht hl
    simp [convert_time, hp, ht, hl]
  · have hp : parseTimestamp "" = none := rfl
    simp [convert_time, hp]

/-- Witness for C7: 2024-06-01 20:00 UTC is already 2024-06-02 in
Asia/Kolkata (UTC+05:30), and a malformed string falls back to "N/A". -/
theorem C7_convert_time_witness :
    convert_time kolkataDb "2024-06-01T20:00:00Z" "Asia/Kolkata" =
      "2024-06-02" ∧
    convert_time kolkataDb "garbage" "Asia/Kolkata" = "N/A" :=
  ⟨(C7_convert_time kolkataDb "2024-06-01T20:00:00Z" "Asia/Kolkata").1
      ⟨2024, 6, 1, 20, 0, 0⟩ (fun _ => 19800) "2024-06-02"
      (by decide) rfl (by decide),
   (C7_convert_time kolkataDb "garbage" "Asia/Kolkata").2.1
      (.inl (by decide))⟩

/-- C8: the per-job decision applies the five filters in the fixed order
blocklist, dedup, salary, location, skill match, short-circuiting on the
first failure: a blocklisted company is rejected outright; a job whose
identifier is already in the seen set is rejected as a duplicate for
EVERY configuration — in particular one whose salary/location/skill keys
are all absent and whose later filters would otherwise raise `KeyError`,
which is what "without the salary, location, or skill checks being
evaluated" means observably; and a job is accepted iff it passes all five
filters. -/
theorem C8_filter_order (tzdb : TzDb) (cfg : Config) (seen : List String)
    (job : Job) :
    (job.company.getD "" ∈ cfg.blocklist_companies.getD [] →
      processJob tzdb cfg seen job = .ok .blocked) ∧
    (job.company.getD "" ∉ cfg.blocklist_companies.getD [] →
      jobId job ∈ seen → processJob tzdb cfg seen job = .ok .duplicate) ∧
    ((∃ fj, processJob tzdb cfg seen job = .ok (.accepted fj)) ↔
      (job.company.getD "" ∉ cfg.blocklist_companies.getD [] ∧
       jobId job ∉ seen ∧
       is_within_salary (some (job.salary.getD 0)) cfg = .ok true ∧
       (∃ ls, cfg.locations = some ls ∧
         is_within_radius (job.location.getD "") ls = true) ∧
       (∃ rs sc, cfg.required_skills = some rs ∧
         skill_match (job.skills.getD []) rs = .ok sc ∧ 60 ≤ sc) ∧
       (∃ tz, cfg.timezone = some tz))) := by
  refine ⟨?_, ?_, processJob_accepted_iff tzdb cfg seen job⟩
  · intro hb; unfold processJob; rw [if_pos hb]
  · intro hnb hseen; unfold processJob; rw [if_neg hnb, if_pos hseen]

/-- Witness for C8: with the completely empty configuration — whose
salary, location and skill lookups would all raise `KeyError` — a job
whose identifier is already seen is still cleanly skipped as a duplicate,
exhibiting the short-circuit. -/
theorem C8_filter_order_witness :
    processJob kolkataDb {} ["j1"] sampleJob = .ok .duplicate :=
  (C8_filter_order kolkataDb {} ["j1"] sampleJob).2.1 (by decide) (by decide)

/-- C9: every record emitted by a successful `filter_jobs` run has
`salary_compliance = true`, a match score that is an integer in
`[60, 100]`, a priority of `"high"` or `"normal"`, and a `valid_until`
that is either a formatted civil date or the sentinel `"N/A"`. -/
theorem C9_output_invariants (tzdb : TzDb) (jobs : List Job) (cfg : Config)
    (cache : List String) (res : RunResult) (out : List String)
    (h : filter_jobs tzdb jobs cfg cache = .ok (res, out)) :
    ∀ fj ∈ res.matched_jobs,
      fj.salary_compliance = true ∧
      60 ≤ fj.match_score ∧ fj.match_score ≤ 100 ∧
      (fj.priority = "high" ∨ fj.priority = "normal") ∧
      (fj.valid_until = "N/A" ∨
        ∃ y m d, fj.valid_until = formatCivil y m d) := by
  intro fj hfj
  obtain ⟨ids, hrun, rfl⟩ := filter_jobs_ok_inv _ _ _ _ _ _ h
  obtain ⟨job, hjob⟩ :=
    (runJobs_inv tzdb cfg cache jobs res.matched_jobs ids hrun).2 fj hfj
  exact accepted_record_props tzdb cfg cache job fj hjob

/-- Witness for C9: the record emitted for the worked scenario satisfies
all the output invariants. -/
theorem C9_output_invariants_witness :
    sampleOut.salary_compliance = true ∧
    60 ≤ sampleOut.match_score ∧ sampleOut.match_score ≤ 100 ∧
    (sampleOut.priority = "high" ∨ sampleOut.priority = "normal") ∧
    (sampleOut.valid_until = "N/A" ∨
      ∃ y m d, sampleOut.valid_until = formatCivil y m d) :=
  C9_output_invariants kolkataDb [sampleJob] sampleConfig []
    ⟨[sampleOut], ⟨1, 1, "100%"⟩⟩ ["j1"] (by decide) sampleOut
    (by decide)

/-- C10: with both `job_skills` and `required_skills` empty — the one case
the spec leaves unevaluated — `skill_match` still returns `0` with no
`ZeroDivisionError`, because the empty-`job_skills` guard is checked
before the division by the required-skills count. -/
theorem C10_skill_match_both_empty : skill_match [] [] = .ok 0 := rfl

end JobBot
